import Mathlib

/-!
Shallow embedding of the ONIX 3.1 XML encoder of `app/services/onix_service.py`
(class `OnixXmlGenerator`), together with the slices of the data model
(`app/models/models.py`) that the encoder reads.

Modelling conventions:
* An lxml element is an `XElem`: tag, attribute list, optional text, children
  in document order.  `etree.SubElement` appends a child; the embedding builds
  the same child lists directly, in the order of the `SubElement` calls.
* Python `None`-able fields are `Option`; Python string truthiness
  (`if s:` is false for `None` and `""`) is `strTruthy`.
* `product.onix_json` is a JSONB dict.  The encoder only tests its truthiness
  (`if product.onix_json:` / `if not onix_json:`) and reads the keys
  `text_content`, `supporting_resources` and `prices` with `.get(key, [])`.
  It is modelled as `Option OnixJson`: `none` stands for SQL NULL or a falsy
  (empty) dict, `some j` for a truthy dict with the three extracted lists
  (a missing key is the empty list).
* JSON numbers (`price_amount`, `tax_rate_percent`) are modelled as `Rat`;
  Python `str(x)` on such a number is modelled by the renderer `numStr`
  (the exact decimal formatting of floats is outside the model, the renderer
  is applied to exactly the values the source passes to `str`).
  Numeric truthiness (`if price_data.get("tax_rate_percent"):`) is `≠ 0`
  on the carried value, false for an absent key.
* The single impure read of the source, `datetime.now().strftime(...)` in the
  header builder, is an explicit parameter `now : String` (the clock reading).
* The source's final step,
  `etree.tostring(root, encoding="unicode", pretty_print=True, xml_declaration=True)`,
  is fallible: lxml rejects the unicode-plus-declaration flag combination
  outright with `ValueError("Serialisation to unicode must not request an
  XML declaration")`, before rendering anything.  The call is modelled as
  `tostring`, returning `Except`, with the guard mirroring lxml's check;
  the encoder as invoked therefore errors on every input.
-/

/-- An XML element: tag, attributes, optional text content, children in
document order.  Mirrors the lxml element tree the source mutates. -/
inductive XElem : Type where
  | mk (tag : String) (attrs : List (String × String)) (text : Option String)
      (children : List XElem)

namespace XElem

def tag : XElem → String
  | .mk t _ _ _ => t

def attrs : XElem → List (String × String)
  | .mk _ a _ _ => a

def text : XElem → Option String
  | .mk _ _ s _ => s

def children : XElem → List XElem
  | .mk _ _ _ c => c

@[simp] theorem tag_mk (t a s c) : (XElem.mk t a s c).tag = t := rfl

@[simp] theorem attrs_mk (t a s c) : (XElem.mk t a s c).attrs = a := rfl

@[simp] theorem text_mk (t a s c) : (XElem.mk t a s c).text = s := rfl

@[simp] theorem children_mk (t a s c) : (XElem.mk t a s c).children = c := rfl

/-- A leaf element with text only, as produced by
`etree.SubElement(parent, tag).text = value`. -/
def leaf (tag : String) (text : String) : XElem := .mk tag [] (some text) []

@[simp] theorem tag_leaf (t s) : (leaf t s).tag = t := rfl

@[simp] theorem text_leaf (t s) : (leaf t s).text = some s := rfl

@[simp] theorem children_leaf (t s) : (leaf t s).children = [] := rfl

mutual

/-- Number of elements (the node itself included) carrying a given tag,
over the whole subtree. -/
def countTag (name : String) : XElem → Nat
  | .mk t _ _ c => (if t = name then 1 else 0) + countTagList name c

/-- `countTag` over a list of subtrees. -/
def countTagList (name : String) : List XElem → Nat
  | [] => 0
  | e :: es => countTag name e + countTagList name es

end

@[simp] theorem countTagList_nil (name) : countTagList name [] = 0 := rfl

@[simp] theorem countTagList_cons (name e es) :
    countTagList name (e :: es) = countTag name e + countTagList name es := rfl

theorem countTagList_append (name : String) (l₁ l₂ : List XElem) :
    countTagList name (l₁ ++ l₂) = countTagList name l₁ + countTagList name l₂ := by
  induction l₁ with
  | nil => simp
  | cons e es ih => simp [ih, Nat.add_assoc]

@[simp] theorem countTag_mk (name t a s c) :
    countTag name (XElem.mk t a s c) =
      (if t = name then 1 else 0) + countTagList name c := rfl

@[simp] theorem countTag_leaf (name t s) :
    countTag name (leaf t s) = if t = name then 1 else 0 := by
  simp [leaf]

/-- The direct children carrying a given tag. -/
def childrenWithTag (name : String) (e : XElem) : List XElem :=
  e.children.filter (fun c => c.tag = name)

/-- The text of the first direct child carrying a given tag (as a consumer
of the document would read, e.g., the `PersonName` of a `Contributor`). -/
def firstChildText (name : String) (e : XElem) : Option String :=
  ((e.children.filter (fun c => c.tag = name)).head?).bind XElem.text

end XElem

/-- The `PersonName` texts of the `Contributor` children of a
`DescriptiveDetail` element, in document order. -/
def contributorNames (desc : XElem) : List (Option String) :=
  (XElem.childrenWithTag "Contributor" desc).map (XElem.firstChildText "PersonName")

/-! ### Data model slice (`app/models/models.py`) -/

/-- `models.Author`: the fields the encoder reads. `biography` is a nullable
text column. -/
structure Author : Type where
  full_name : String
  biography : Option String
deriving DecidableEq

/-- `models.Publisher`: the fields the encoder reads. `gln` is nullable. -/
structure Publisher : Type where
  name : String
  gln : Option String
deriving DecidableEq

/-- One entry of `onix_json["text_content"]` (keys read by the encoder;
`none` = key absent, so that `.get(key, default)` yields the default). -/
structure TextContent : Type where
  text_type : Option String
  content_audience : Option String
  text : Option String
deriving DecidableEq

/-- One entry of `onix_json["supporting_resources"]`. -/
structure SupportingResource : Type where
  resource_content_type : Option String
  resource_mode : Option String
  resource_link : Option String
deriving DecidableEq

/-- One entry of `onix_json["prices"]`.  Numbers are carried as `Rat`. -/
structure PriceEntry : Type where
  price_type : Option String
  price_amount : Option Rat
  currency_code : Option String
  tax_rate_code : Option String
  tax_rate_percent : Option Rat
deriving DecidableEq

/-- The slices of the `onix_json` JSONB dict the encoder reads
(`.get("text_content", [])`, `.get("supporting_resources", [])`,
`.get("prices", [])`); a missing key is the empty list. -/
structure OnixJson : Type where
  text_content : List TextContent
  supporting_resources : List SupportingResource
  prices : List PriceEntry
deriving DecidableEq

/-- `models.Product`: the fields the encoder reads.  `id` is the UUID,
modelled as its string rendering (the source only uses `str(product.id)`);
`onix_json` is `none` for SQL NULL or a falsy (empty) dict. -/
structure Product : Type where
  id : String
  isbn_13 : String
  title : String
  product_form : Option String
  language : Option String
  onix_json : Option OnixJson
deriving DecidableEq

/-- `models.ProductAuthor`: the association row joining a product to an
author, carrying `role_code` and `sequence_number`.  The encoder never
receives these rows; the caller (`export_product_onix`) projects them to
bare `Author` records. -/
structure ProductAuthor : Type where
  author : Author
  role_code : String
  sequence_number : Nat
deriving DecidableEq

/-- The author list the API route passes to the encoder: the `Author` records
of the association rows, in list order.  The projection drops `role_code`
and `sequence_number` — the encoder cannot see them. -/
def authorsOf (assocs : List ProductAuthor) : List Author :=
  assocs.map (·.author)

/-! ### Python truthiness and `str` rendering helpers -/

/-- Python truthiness of an optional string: `None` and `""` are falsy. -/
def strTruthy : Option String → Bool
  | none => false
  | some s => s ≠ ""

/-- Python `x or default` for an optional string (used for
`product.product_form or "BC"` and `product.language or "ukr"`). -/
def pyOr (o : Option String) (default : String) : String :=
  match o with
  | none => default
  | some s => if s = "" then default else s

/-- Python truthiness of an optional JSON number: absent and `0` are falsy
(`if price_data.get("tax_rate_percent"):`). -/
def numTruthy : Option Rat → Bool
  | none => false
  | some q => q ≠ 0

/-- Models Python `str(x)` applied to a JSON number.  The source applies it to
`price_data.get("price_amount", 0)` and `price_data.get("tax_rate_percent", 20)`;
the exact float formatting is outside the model, the renderer is injective
enough for the properties proved here. -/
def numStr (q : Rat) : String := toString q

/-! ### The encoder (`OnixXmlGenerator`), builder by builder -/

/-- The ONIX 3.1 namespace bound at the root (`ONIX_NS` in the source). -/
def ONIX_NS : String := "http://ns.editeur.org/onix/3.1"

/-- `OnixXmlGenerator._create_header`: `Header/Sender/{SenderName,
EmailAddress?}`, `SentDateTime` (the clock reading `now`), `MessageNote`.
`EmailAddress` is emitted only when `sender_email` is truthy. -/
def createHeader (sender_name sender_email now : String) : XElem :=
  .mk "Header" [] none
    [ .mk "Sender" [] none
        ([XElem.leaf "SenderName" sender_name] ++
          (if sender_email ≠ "" then [XElem.leaf "EmailAddress" sender_email] else [])),
      XElem.leaf "SentDateTime" now,
      XElem.leaf "MessageNote" "ONIX 3.1 Export" ]

/-- `OnixXmlGenerator._create_product_identifiers`: one `ProductIdentifier`
with `ProductIDType = "15"` and `IDValue` = the ISBN string, verbatim and
unvalidated. -/
def createProductIdentifiers (isbn : String) : XElem :=
  .mk "ProductIdentifier" [] none
    [ XElem.leaf "ProductIDType" "15",
      XElem.leaf "IDValue" isbn ]

/-- One `Contributor` element as built in the loop
`for i, author in enumerate(authors, 1)` of `_create_descriptive_detail`:
`SequenceNumber` is `str(i)` (the 1-based loop index), `ContributorRole` is
the fixed `"A01"`, and `BiographicalNote` appears iff the biography is
truthy. -/
def contributorElem (i : Nat) (a : Author) : XElem :=
  .mk "Contributor" [] none
    ([ XElem.leaf "SequenceNumber" (toString i),
       XElem.leaf "ContributorRole" "A01",
       XElem.leaf "PersonName" a.full_name ] ++
      (if strTruthy a.biography then [XElem.leaf "BiographicalNote" (a.biography.getD "")]
       else []))

/-- The `Contributor` elements for the author list, in list order, with
1-based positional sequence numbers (`enumerate(authors, 1)`). -/
def contributorElems (authors : List Author) : List XElem :=
  (List.enumFrom 1 authors).map (fun p => contributorElem p.1 p.2)

/-- The `Collection` element built when `collection_title` is truthy. -/
def collectionElem (title : String) : XElem :=
  .mk "Collection" [] none
    [ XElem.leaf "CollectionType" "10",
      .mk "TitleDetail" [] none
        [ XElem.leaf "TitleType" "01",
          .mk "TitleElement" [] none
            [ XElem.leaf "TitleElementLevel" "02",
              XElem.leaf "TitleText" title ] ] ]

/-- `OnixXmlGenerator._create_descriptive_detail`: `ProductComposition`,
`ProductForm` (default `"BC"`), `TitleDetail`, the contributors in input
order, `Collection` iff `collection_title` is truthy, then `Language`
(default code `"ukr"`). -/
def createDescriptiveDetail (product : Product) (authors : List Author)
    (collection_title : Option String) : XElem :=
  .mk "DescriptiveDetail" [] none
    ([ XElem.leaf "ProductComposition" "00",
       XElem.leaf "ProductForm" (pyOr product.product_form "BC"),
       .mk "TitleDetail" [] none
         [ XElem.leaf "TitleType" "01",
           .mk "TitleElement" [] none
             [ XElem.leaf "TitleElementLevel" "01",
               XElem.leaf "TitleText" product.title ] ] ] ++
      contributorElems authors ++
      (if strTruthy collection_title then [collectionElem (collection_title.getD "")]
       else []) ++
      [ .mk "Language" [] none
          [ XElem.leaf "LanguageRole" "01",
            XElem.leaf "LanguageCode" (pyOr product.language "ukr") ] ])

/-- One `TextContent` element of the collateral block. -/
def textContentElem (tc : TextContent) : XElem :=
  .mk "TextContent" [] none
    [ XElem.leaf "TextType" (tc.text_type.getD "03"),
      XElem.leaf "ContentAudience" (tc.content_audience.getD "00"),
      XElem.leaf "Text" (tc.text.getD "") ]

/-- One `SupportingResource` element of the collateral block. -/
def supportingResourceElem (res : SupportingResource) : XElem :=
  .mk "SupportingResource" [] none
    [ XElem.leaf "ResourceContentType" (res.resource_content_type.getD "01"),
      XElem.leaf "ContentAudience" "00",
      XElem.leaf "ResourceMode" (res.resource_mode.getD "03"),
      .mk "ResourceVersion" [] none
        [ XElem.leaf "ResourceForm" "02",
          XElem.leaf "ResourceLink" (res.resource_link.getD "") ] ]

/-- `OnixXmlGenerator._create_collateral_detail`: returns `None` when the
dict is falsy (`if not onix_json: return None`), otherwise emits one
`TextContent` per `text_content` entry followed by one `SupportingResource`
per `supporting_resources` entry — even when both lists are empty. -/
def createCollateralDetail (onix_json : Option OnixJson) : Option XElem :=
  match onix_json with
  | none => none
  | some j =>
      some (.mk "CollateralDetail" [] none
        (j.text_content.map textContentElem ++
          j.supporting_resources.map supportingResourceElem))

/-- The `Publisher` element built when a publisher is present:
`PublishingRole`, `PublisherName`, and `PublisherIdentifier` iff the GLN is
truthy. -/
def publisherElem (p : Publisher) : XElem :=
  .mk "Publisher" [] none
    ([ XElem.leaf "PublishingRole" "01",
       XElem.leaf "PublisherName" p.name ] ++
      (if strTruthy p.gln then
        [ .mk "PublisherIdentifier" [] none
            [ XElem.leaf "PublisherIDType" "06",
              XElem.leaf "IDValue" (p.gln.getD "") ] ]
       else []))

/-- `OnixXmlGenerator._create_publishing_detail`: always emitted; `Publisher`
child iff a publisher is present, then `PublishingStatus = "04"` always. -/
def createPublishingDetail (publisher : Option Publisher) : XElem :=
  .mk "PublishingDetail" [] none
    ((match publisher with
      | some p => [publisherElem p]
      | none => []) ++
      [XElem.leaf "PublishingStatus" "04"])

/-- One `Price` element of the supply block: `PriceType`, `PriceAmount`,
`CurrencyCode`, and a nested `Tax` element iff `tax_rate_percent` is truthy
(present and non-zero). -/
def priceElem (p : PriceEntry) : XElem :=
  .mk "Price" [] none
    ([ XElem.leaf "PriceType" (p.price_type.getD "01"),
       XElem.leaf "PriceAmount" (numStr (p.price_amount.getD 0)),
       XElem.leaf "CurrencyCode" (p.currency_code.getD "UAH") ] ++
      (if numTruthy p.tax_rate_percent then
        [ .mk "Tax" [] none
            [ XElem.leaf "TaxType" "01",
              XElem.leaf "TaxRateCode" (p.tax_rate_code.getD "S"),
              XElem.leaf "TaxRatePercent" (numStr (p.tax_rate_percent.getD 20)) ] ]
       else []))

/-- `OnixXmlGenerator._create_product_supply`: `prices` is
`onix_json.get("prices", []) if onix_json else []`; when it is empty the
builder returns `None`, otherwise `ProductSupply/SupplyDetail` with
`ProductAvailability = "20"` and one `Price` per entry. -/
def createProductSupply (onix_json : Option OnixJson) : Option XElem :=
  let prices := match onix_json with
    | some j => j.prices
    | none => []
  if prices.isEmpty then none
  else
    some (.mk "ProductSupply" [] none
      [ .mk "SupplyDetail" [] none
          (XElem.leaf "ProductAvailability" "20" :: prices.map priceElem) ])

/-- Turns the optional result of a conditional builder into the list of
children it contributes. -/
def optChild : Option XElem → List XElem
  | none => []
  | some e => [e]

/-- The `Product` element assembled by `generate_product_xml`:
`RecordReference`, `NotificationType = "03"`, then the five blocks in fixed
call order.  The assembler's guard `if product.onix_json:` before the
collateral and supply builders coincides with those builders' own
truthiness/emptiness guards, so the composition is expressed through the
builders alone. -/
def productElem (product : Product) (authors : List Author)
    (publisher : Option Publisher) (collection_title : Option String) : XElem :=
  .mk "Product" [] none
    ([ XElem.leaf "RecordReference" product.id,
       XElem.leaf "NotificationType" "03",
       createProductIdentifiers product.isbn_13,
       createDescriptiveDetail product authors collection_title ] ++
      optChild (createCollateralDetail product.onix_json) ++
      [ createPublishingDetail publisher ] ++
      optChild (createProductSupply product.onix_json))

/-- `OnixXmlGenerator.generate_product_xml`: the root `ONIXMessage` element
(namespace and `release="3.1"` attribute), containing the header and the
single product element. -/
def generateProductXml (product : Product) (authors : List Author)
    (publisher : Option Publisher) (collection_title : Option String)
    (sender_name sender_email now : String) : XElem :=
  .mk "ONIXMessage" [("xmlns", ONIX_NS), ("release", "3.1")] none
    [ createHeader sender_name sender_email now,
      productElem product authors publisher collection_title ]

/-! ### Serializer (`etree.tostring(root, encoding="unicode", pretty_print=True, xml_declaration=True)`) -/

/-- XML text-content escaping of `&`, `<`, `>` as performed by the
serializer. -/
def escapeXml (s : String) : String :=
  s.foldl (fun acc c =>
    acc ++ (if c = '&' then "&amp;" else if c = '<' then "&lt;"
            else if c = '>' then "&gt;" else String.singleton c)) ""

/-- Renders an attribute list. -/
def renderAttrs (attrs : List (String × String)) : String :=
  attrs.foldl (fun acc a => acc ++ " " ++ a.1 ++ "=\x22" ++ a.2 ++ "\x22") ""

mutual

/-- Pretty-printed rendering of one element at an indentation depth. -/
def renderElem (indent : Nat) : XElem → String
  | .mk t a s c =>
      let pad := String.join (List.replicate indent "  ")
      (pad ++ "<" ++ t ++ renderAttrs a ++ ">") ++
        (if c.isEmpty then escapeXml (s.getD "")
         else "\n" ++ renderList (indent + 1) c ++ pad) ++
        ("</" ++ t ++ ">\n")

/-- Pretty-printed rendering of a list of elements. -/
def renderList (indent : Nat) : List XElem → String
  | [] => ""
  | e :: es => renderElem indent e ++ renderList indent es

end

/-- Models `etree.tostring(root, ...)` with the `encoding="unicode"` and
`xml_declaration` flags explicit.  lxml refuses the combination of unicode
(text) serialisation with a requested XML declaration: it raises
`ValueError("Serialisation to unicode must not request an XML declaration")`
up front, before rendering anything; the other flag combinations render the
(pretty-printed) tree, with a UTF-8 declaration prefix when one is
requested.  The fallible call returns `Except`. -/
def tostring (root : XElem) (unicodeEncoding xml_declaration : Bool) :
    Except String String :=
  if unicodeEncoding && xml_declaration then
    Except.error "Serialisation to unicode must not request an XML declaration"
  else if xml_declaration then
    Except.ok ("<?xml version=\x221.0\x22 encoding=\x22UTF-8\x22?>\n" ++
      renderElem 0 root)
  else
    Except.ok (renderElem 0 root)

/-- The full encoder as the route invokes it: tree construction followed by
the serialization call with the source's fixed flags
(`encoding="unicode"`, `xml_declaration=True`); `now` is the single clock
reading of the header builder.  Because lxml rejects that flag combination,
this errors for every input. -/
def generateProductXmlStr (product : Product) (authors : List Author)
    (publisher : Option Publisher) (collection_title : Option String)
    (sender_name sender_email now : String) : Except String String :=
  tostring (generateProductXml product authors publisher collection_title
    sender_name sender_email now) true true

/-! ### State-passing form for the frame property

The source builders receive the model objects and only ever read attributes
from them (`product.title`, `author.full_name`, …); no statement assigns to
the aggregate.  The state-passing transcription below makes that explicit:
each builder returns the aggregate it received alongside its subtree, and the
assembler threads the aggregate through every builder in call order. -/

/-- The bibliographic aggregate as the route hands it to the encoder. -/
structure Aggregate : Type where
  product : Product
  authors : List Author
  publisher : Option Publisher
  collection_title : Option String
deriving DecidableEq

/-- State-passing `_create_descriptive_detail`: reads the product, the
authors and the collection title, writes nothing back. -/
def createDescriptiveDetailSt (a : Aggregate) : XElem × Aggregate :=
  (createDescriptiveDetail a.product a.authors a.collection_title, a)

/-- State-passing `_create_collateral_detail`. -/
def createCollateralDetailSt (a : Aggregate) : Option XElem × Aggregate :=
  (createCollateralDetail a.product.onix_json, a)

/-- State-passing `_create_publishing_detail`. -/
def createPublishingDetailSt (a : Aggregate) : XElem × Aggregate :=
  (createPublishingDetail a.publisher, a)

/-- State-passing `_create_product_supply`. -/
def createProductSupplySt (a : Aggregate) : Option XElem × Aggregate :=
  (createProductSupply a.product.onix_json, a)

/-- State-passing `generate_product_xml`: the aggregate is threaded through
every builder in call order and returned with the document. -/
def generateProductXmlSt (a : Aggregate) (sender_name sender_email now : String) :
    XElem × Aggregate :=
  let header := createHeader sender_name sender_email now
  let idBlock := createProductIdentifiers a.product.isbn_13
  let (descBlock, a₁) := createDescriptiveDetailSt a
  let (collBlock, a₂) := createCollateralDetailSt a₁
  let (pubBlock, a₃) := createPublishingDetailSt a₂
  let (supplyBlock, a₄) := createProductSupplySt a₃
  (.mk "ONIXMessage" [("xmlns", ONIX_NS), ("release", "3.1")] none
    [ header,
      .mk "Product" [] none
        ([ XElem.leaf "RecordReference" a.product.id,
           XElem.leaf "NotificationType" "03",
           idBlock, descBlock ] ++
          optChild collBlock ++ [pubBlock] ++ optChild supplyBlock) ],
   a₄)


/-! ### Contributor lemmas -/

theorem firstChildText_contributorElem_personName (i : Nat) (a : Author) :
    XElem.firstChildText "PersonName" (contributorElem i a) = some a.full_name := by
  by_cases hb : strTruthy a.biography = true
  · simp only [contributorElem, hb, if_true]; rfl
  · simp only [contributorElem, hb, if_false]; rfl

theorem firstChildText_contributorElem_seq (i : Nat) (a : Author) :
    XElem.firstChildText "SequenceNumber" (contributorElem i a) = some (toString i) := by
  by_cases hb : strTruthy a.biography = true
  · simp only [contributorElem, hb, if_true]; rfl
  · simp only [contributorElem, hb, if_false]; rfl

theorem firstChildText_contributorElem_role (i : Nat) (a : Author) :
    XElem.firstChildText "ContributorRole" (contributorElem i a) = some "A01" := by
  by_cases hb : strTruthy a.biography = true
  · simp only [contributorElem, hb, if_true]; rfl
  · simp only [contributorElem, hb, if_false]; rfl

theorem tag_contributorElem (i : Nat) (a : Author) :
    (contributorElem i a).tag = "Contributor" := rfl

theorem getq_enumFrom {α : Type _} (n : Nat) (l : List α) (i : Nat) :
    (List.enumFrom n l).get? i = (l.get? i).map (fun a => (n + i, a)) := by
  induction l generalizing n i with
  | nil => simp [List.enumFrom]
  | cons x xs ih =>
      cases i with
      | zero => simp [List.enumFrom]
      | succ m =>
          simp [List.enumFrom, ih (n + 1) m, Nat.add_assoc, Nat.add_comm 1 m]

theorem filter_contributorElems (pred : XElem → Bool)
    (hkeep : ∀ e, e.tag = "Contributor" → pred e = true) (authors : List Author) :
    (contributorElems authors).filter pred = contributorElems authors :=
  List.filter_eq_self.mpr (by
    intro e he
    unfold contributorElems at he
    obtain ⟨p, _, rfl⟩ := List.mem_map.mp he
    exact hkeep _ (tag_contributorElem p.1 p.2))

theorem childrenWithTag_contributor_desc (p : Product) (authors : List Author)
    (ct : Option String) :
    XElem.childrenWithTag "Contributor" (createDescriptiveDetail p authors ct) =
      contributorElems authors := by
  unfold XElem.childrenWithTag createDescriptiveDetail
  by_cases hc : strTruthy ct = true <;>
    simp [hc, List.filter_append, collectionElem,
      filter_contributorElems (fun c => decide (c.tag = "Contributor"))
        (fun e he => by simp [he]) authors]

theorem map_personName_enumFrom (n : Nat) (l : List Author) :
    ((List.enumFrom n l).map (fun q => contributorElem q.1 q.2)).map
        (XElem.firstChildText "PersonName") = l.map (fun a => some a.full_name) := by
  induction l generalizing n with
  | nil => simp [List.enumFrom]
  | cons a as ih =>
      simp [List.enumFrom, firstChildText_contributorElem_personName, ih (n + 1)]

/-- C1 (amended): the encoder emits `Contributor` elements in the input order
of the author list it receives; the association rows' `sequence_number` and
`role_code` have no influence (the caller's projection `authorsOf` already
discards them), so for authors `[(B,seq=2), (A,seq=1)]` the output lists `B`
before `A`. -/
theorem contributors_follow_input_order (p : Product) (assocs : List ProductAuthor)
    (ct : Option String) :
    contributorNames (createDescriptiveDetail p (authorsOf assocs) ct) =
      assocs.map (fun pa => some pa.author.full_name) := by
  unfold contributorNames
  rw [childrenWithTag_contributor_desc]
  unfold contributorElems
  rw [map_personName_enumFrom]
  unfold authorsOf
  rw [List.map_map]
  rfl

/-- C1 (counterexample): for the aggregate with authors
`[(B, seq=2), (A, seq=1)]` the output lists `B` before `A` — not `A` before
`B` as the claim states: the encoder never sorts by `sequence_number`. -/
theorem contributors_seqnum_order_counterexample :
    contributorNames (createDescriptiveDetail
        ⟨"1", "9780000000002", "T", none, none, none⟩
        (authorsOf [⟨⟨"B", none⟩, "A01", 2⟩, ⟨⟨"A", none⟩, "A01", 1⟩]) none) =
      [some "B", some "A"] ∧
    ¬ ((contributorNames (createDescriptiveDetail
        ⟨"1", "9780000000002", "T", none, none, none⟩
        (authorsOf [⟨⟨"B", none⟩, "A01", 2⟩, ⟨⟨"A", none⟩, "A01", 1⟩]) none)).indexOf
          (some "A") <
        (contributorNames (createDescriptiveDetail
        ⟨"1", "9780000000002", "T", none, none, none⟩
        (authorsOf [⟨⟨"B", none⟩, "A01", 2⟩, ⟨⟨"A", none⟩, "A01", 1⟩]) none)).indexOf
          (some "B")) := by
  constructor
  · rfl
  · decide

/-- C10: the `i`-th emitted `Contributor` (0-based here, so 1-based position
`i+1`) carries `SequenceNumber` equal to the decimal string of its position
and `ContributorRole` equal to the fixed `"A01"`, whatever `sequence_number`
and `role_code` the association rows store. -/
theorem positional_sequence_numbers (p : Product) (assocs : List ProductAuthor)
    (ct : Option String) (i : Nat) (hi : i < assocs.length) :
    ((XElem.childrenWithTag "Contributor"
        (createDescriptiveDetail p (authorsOf assocs) ct)).get? i).bind
        (XElem.firstChildText "SequenceNumber") = some (toString (i + 1)) ∧
    ((XElem.childrenWithTag "Contributor"
        (createDescriptiveDetail p (authorsOf assocs) ct)).get? i).bind
        (XElem.firstChildText "ContributorRole") = some "A01" := by
  rw [childrenWithTag_contributor_desc]
  unfold contributorElems
  have hlen : i < (authorsOf assocs).length := by simpa [authorsOf]
  cases h : (authorsOf assocs).get? i with
  | none =>
      rw [List.get?_eq_none] at h
      omega
  | some a =>
      rw [List.get?_map, getq_enumFrom, h]
      simp [firstChildText_contributorElem_seq, firstChildText_contributorElem_role,
        Nat.add_comm 1 i]

theorem positional_sequence_numbers_witness :
    0 < 1 ∧
    (((XElem.childrenWithTag "Contributor"
        (createDescriptiveDetail ⟨"1", "9780000000002", "T", none, none, none⟩
          (authorsOf [⟨⟨"X", none⟩, "B99", 7⟩]) none)).get? 0).bind
        (XElem.firstChildText "SequenceNumber") = some (toString (0 + 1)) ∧
      ((XElem.childrenWithTag "Contributor"
        (createDescriptiveDetail ⟨"1", "9780000000002", "T", none, none, none⟩
          (authorsOf [⟨⟨"X", none⟩, "B99", 7⟩]) none)).get? 0).bind
        (XElem.firstChildText "ContributorRole") = some "A01") :=
  ⟨by decide,
   positional_sequence_numbers ⟨"1", "9780000000002", "T", none, none, none⟩
     [⟨⟨"X", none⟩, "B99", 7⟩] none 0 (by decide)⟩

theorem tag_createProductIdentifiers (isbn : String) :
    (createProductIdentifiers isbn).tag = "ProductIdentifier" := rfl

theorem tag_createDescriptiveDetail (p : Product) (authors : List Author)
    (ct : Option String) :
    (createDescriptiveDetail p authors ct).tag = "DescriptiveDetail" := rfl

theorem tag_createPublishingDetail (pub : Option Publisher) :
    (createPublishingDetail pub).tag = "PublishingDetail" := rfl

/-- C3: the `Product` element's children appear in exactly the fixed order:
`RecordReference` (the stringified product id), `NotificationType` (fixed
`"03"`), the identifier block, the descriptive
block, then `CollateralDetail` iff the supplementary metadata is present
(truthy), then `PublishingDetail` always, then `ProductSupply` iff the
`prices` sub-list is non-empty — never reordered, whatever optional data is
present. -/
theorem product_block_order (p : Product) (authors : List Author)
    (pub : Option Publisher) (ct : Option String) :
    (productElem p authors pub ct).children.get? 0 =
      some (XElem.leaf "RecordReference" p.id) ∧
    (productElem p authors pub ct).children.get? 1 =
      some (XElem.leaf "NotificationType" "03") ∧
    (productElem p authors pub ct).children.map XElem.tag =
      ["RecordReference", "NotificationType", "ProductIdentifier",
        "DescriptiveDetail"] ++
      (match p.onix_json with
       | none => []
       | some _ => ["CollateralDetail"]) ++
      ["PublishingDetail"] ++
      (match p.onix_json with
       | none => []
       | some j => if j.prices.isEmpty then [] else ["ProductSupply"]) := by
  refine ⟨rfl, rfl, ?_⟩
  unfold productElem createCollateralDetail createProductSupply
  cases hoj : p.onix_json with
  | none =>
      simp [optChild, tag_createProductIdentifiers, tag_createDescriptiveDetail,
        tag_createPublishingDetail]
  | some j =>
      by_cases hp : j.prices.isEmpty <;>
        simp [optChild, hp, tag_createProductIdentifiers, tag_createDescriptiveDetail,
          tag_createPublishingDetail]

/-- C2 (amended): the encoder performs no ISBN validation and defines no
`MissingRequiredField` error: for every `isbn_13` string, well-formed or
not, the in-memory document tree contains the product element whose third
child is a `ProductIdentifier` with `ProductIDType` `"15"` and `IDValue`
equal to the given string, verbatim; the only error the call raises is the
serializer's input-independent `ValueError` (unicode serialisation with an
XML declaration requested), identical for every input, so no XML text is
emitted for any input — never because of the ISBN. -/
theorem identifier_emitted_verbatim (p : Product) (authors : List Author)
    (pub : Option Publisher) (ct : Option String) (sn se now : String) :
    (generateProductXml p authors pub ct sn se now).children.get? 1 =
      some (productElem p authors pub ct) ∧
    (productElem p authors pub ct).children.get? 2 =
      some (XElem.mk "ProductIdentifier" [] none
        [XElem.leaf "ProductIDType" "15", XElem.leaf "IDValue" p.isbn_13]) ∧
    generateProductXmlStr p authors pub ct sn se now =
      Except.error "Serialisation to unicode must not request an XML declaration" :=
  ⟨rfl, rfl, rfl⟩

/-- C2 (counterexample): for the malformed ISBN `"12345"` no
`MissingRequiredField`/format error is raised: the encoder builds the
document tree containing exactly one `ProductIdentifier` whose `IDValue`
text is `"12345"` (the malformed identifier is not refused), and the error
the call does raise is the serializer's `ValueError` — raised identically
for the well-formed ISBN `"9780000000002"` — not an ISBN format check. -/
theorem isbn_validation_counterexample :
    XElem.countTag "ProductIdentifier"
      (generateProductXml ⟨"1", "12345", "T", none, none, none⟩ [] none none
        "ONIX Book System" "" "20260101T000000") = 1 ∧
    XElem.firstChildText "IDValue" (createProductIdentifiers "12345") =
      some "12345" ∧
    generateProductXmlStr ⟨"1", "12345", "T", none, none, none⟩ [] none none
        "ONIX Book System" "" "20260101T000000" =
      Except.error "Serialisation to unicode must not request an XML declaration" ∧
    generateProductXmlStr ⟨"1", "9780000000002", "T", none, none, none⟩ [] none
        none "ONIX Book System" "" "20260101T000000" =
      Except.error "Serialisation to unicode must not request an XML declaration" :=
  ⟨rfl, rfl, rfl, rfl⟩

/-- C7: a product lacking `product_form` yields `ProductForm` text `"BC"`
(the second child of `DescriptiveDetail`), and one lacking `language` yields
`LanguageCode` text `"ukr"` (inside the final `Language` child). -/
theorem default_codes (p : Product) (authors : List Author) (ct : Option String) :
    (p.product_form = none →
      (createDescriptiveDetail p authors ct).children.get? 1 =
        some (XElem.leaf "ProductForm" "BC")) ∧
    (p.language = none →
      (createDescriptiveDetail p authors ct).children.getLast? =
        some (XElem.mk "Language" [] none
          [XElem.leaf "LanguageRole" "01", XElem.leaf "LanguageCode" "ukr"])) := by
  constructor
  · intro h
    simp [createDescriptiveDetail, h, pyOr]
  · intro h
    unfold createDescriptiveDetail
    simp only [XElem.children_mk]
    rw [List.getLast?_append_of_ne_nil]
    · simp [h, pyOr]
    · simp

theorem default_codes_witness :
    (createDescriptiveDetail ⟨"1", "9780000000002", "T", none, none, none⟩
        [] none).children.get? 1 = some (XElem.leaf "ProductForm" "BC") ∧
    (createDescriptiveDetail ⟨"1", "9780000000002", "T", none, none, none⟩
        [] none).children.getLast? =
      some (XElem.mk "Language" [] none
        [XElem.leaf "LanguageRole" "01", XElem.leaf "LanguageCode" "ukr"]) :=
  ⟨(default_codes ⟨"1", "9780000000002", "T", none, none, none⟩ [] none).1 rfl,
   (default_codes ⟨"1", "9780000000002", "T", none, none, none⟩ [] none).2 rfl⟩

/-- C6: a `Price` element has a nested `Tax` child iff `tax_rate_percent` is
present and non-zero; an absent rate yields no `Tax`, and a non-zero rate `q`
yields a `Tax` with fixed `TaxType "01"`, then `TaxRateCode`, then
`TaxRatePercent` rendering `q`. -/
theorem tax_conditionality (p : PriceEntry) :
    (XElem.childrenWithTag "Tax" (priceElem p) ≠ [] ↔
      ∃ q, p.tax_rate_percent = some q ∧ q ≠ 0) ∧
    (p.tax_rate_percent = none → XElem.childrenWithTag "Tax" (priceElem p) = []) ∧
    (∀ q : Rat, p.tax_rate_percent = some q → q ≠ 0 →
      XElem.childrenWithTag "Tax" (priceElem p) =
        [XElem.mk "Tax" [] none
          [XElem.leaf "TaxType" "01",
           XElem.leaf "TaxRateCode" (p.tax_rate_code.getD "S"),
           XElem.leaf "TaxRatePercent" (numStr q)]]) := by
  cases hq : p.tax_rate_percent with
  | none =>
      simp [priceElem, numTruthy, hq, XElem.childrenWithTag]
  | some q =>
      by_cases hz : q = 0
      · subst hz
        simp [priceElem, numTruthy, hq, XElem.childrenWithTag]
      · simp [priceElem, numTruthy, hq, hz, XElem.childrenWithTag]

theorem tax_conditionality_witness :
    XElem.childrenWithTag "Tax" (priceElem ⟨none, none, none, none, some 20⟩) =
      [XElem.mk "Tax" [] none
        [XElem.leaf "TaxType" "01", XElem.leaf "TaxRateCode" "S",
         XElem.leaf "TaxRatePercent" (numStr 20)]] :=
  (tax_conditionality ⟨none, none, none, none, some 20⟩).2.2 20 rfl (by decide)

/-- C8: the claim's byte-identical output never exists: the final
serialization call of `generate_product_xml` requests an XML declaration
while serialising to unicode, a combination lxml rejects, so every
invocation — whatever the aggregate, sender identity, or clock reading —
raises `ValueError` and returns no output, contradicting the function's own
`-> str` annotation and docstring. -/
theorem serialization_always_raises (p : Product) (authors : List Author)
    (pub : Option Publisher) (ct : Option String) (sn se now : String) :
    generateProductXmlStr p authors pub ct sn se now =
      Except.error "Serialisation to unicode must not request an XML declaration" :=
  rfl

/-- C9: the encoder never mutates its input: the state-passing transcription
threads the aggregate through every builder and returns it unchanged, while
producing the same document as the direct encoder. -/
theorem encoder_preserves_aggregate (a : Aggregate) (sn se now : String) :
    (generateProductXmlSt a sn se now).2 = a ∧
    (generateProductXmlSt a sn se now).1 =
      generateProductXml a.product a.authors a.publisher a.collection_title
        sn se now :=
  ⟨rfl, rfl⟩

/-! ### Tag-count lemmas for the omission claims -/

theorem countTagList_map_eq_zero {α : Type _} (name : String) (f : α → XElem)
    (h : ∀ x, XElem.countTag name (f x) = 0) (l : List α) :
    XElem.countTagList name (l.map f) = 0 := by
  induction l with
  | nil => rfl
  | cons x xs ih => simp [h x, ih]

theorem countTag_contributorElem_eq_zero (name : String) (i : Nat) (a : Author)
    (h1 : "Contributor" ≠ name) (h2 : "SequenceNumber" ≠ name)
    (h3 : "ContributorRole" ≠ name) (h4 : "PersonName" ≠ name)
    (h5 : "BiographicalNote" ≠ name) :
    XElem.countTag name (contributorElem i a) = 0 := by
  by_cases hb : strTruthy a.biography = true <;>
    simp [contributorElem, hb, h1, h2, h3, h4, h5]

theorem countTagList_contributorElems_eq_zero (name : String) (authors : List Author)
    (h1 : "Contributor" ≠ name) (h2 : "SequenceNumber" ≠ name)
    (h3 : "ContributorRole" ≠ name) (h4 : "PersonName" ≠ name)
    (h5 : "BiographicalNote" ≠ name) :
    XElem.countTagList name (contributorElems authors) = 0 := by
  unfold contributorElems
  exact countTagList_map_eq_zero name (fun q => contributorElem q.1 q.2)
    (fun q => countTag_contributorElem_eq_zero name q.1 q.2 h1 h2 h3 h4 h5)
    (List.enumFrom 1 authors)

theorem countTag_createHeader_eq_zero (name sn se now : String)
    (h1 : "Header" ≠ name) (h2 : "Sender" ≠ name) (h3 : "SenderName" ≠ name)
    (h4 : "EmailAddress" ≠ name) (h5 : "SentDateTime" ≠ name)
    (h6 : "MessageNote" ≠ name) :
    XElem.countTag name (createHeader sn se now) = 0 := by
  by_cases hse : se = "" <;>
    simp [createHeader, hse, h1, h2, h3, h4, h5, h6]

theorem countTag_createProductIdentifiers_eq_zero (name isbn : String)
    (h1 : "ProductIdentifier" ≠ name) (h2 : "ProductIDType" ≠ name)
    (h3 : "IDValue" ≠ name) :
    XElem.countTag name (createProductIdentifiers isbn) = 0 := by
  simp [createProductIdentifiers, h1, h2, h3]

theorem countTag_createDescriptiveDetail_eq_zero (name : String) (p : Product)
    (authors : List Author) (ct : Option String)
    (h1 : "DescriptiveDetail" ≠ name) (h2 : "ProductComposition" ≠ name)
    (h3 : "ProductForm" ≠ name) (h4 : "TitleDetail" ≠ name)
    (h5 : "TitleType" ≠ name) (h6 : "TitleElement" ≠ name)
    (h7 : "TitleElementLevel" ≠ name) (h8 : "TitleText" ≠ name)
    (h9 : "Contributor" ≠ name) (h10 : "SequenceNumber" ≠ name)
    (h11 : "ContributorRole" ≠ name) (h12 : "PersonName" ≠ name)
    (h13 : "BiographicalNote" ≠ name) (h14 : "Collection" ≠ name)
    (h15 : "CollectionType" ≠ name) (h16 : "Language" ≠ name)
    (h17 : "LanguageRole" ≠ name) (h18 : "LanguageCode" ≠ name) :
    XElem.countTag name (createDescriptiveDetail p authors ct) = 0 := by
  have hcontrib := countTagList_contributorElems_eq_zero name authors h9 h10 h11 h12 h13
  by_cases hc : strTruthy ct = true <;>
    simp [createDescriptiveDetail, hc, collectionElem, XElem.countTagList_append,
      hcontrib, h1, h2, h3, h4, h5, h6, h7, h8, h14, h15, h16, h17, h18]

theorem countTag_createPublishingDetail_eq_zero (name : String)
    (pub : Option Publisher)
    (h1 : "PublishingDetail" ≠ name) (h2 : "Publisher" ≠ name)
    (h3 : "PublishingRole" ≠ name) (h4 : "PublisherName" ≠ name)
    (h5 : "PublisherIdentifier" ≠ name) (h6 : "PublisherIDType" ≠ name)
    (h7 : "IDValue" ≠ name) (h8 : "PublishingStatus" ≠ name) :
    XElem.countTag name (createPublishingDetail pub) = 0 := by
  cases pub with
  | none => simp [createPublishingDetail, h1, h8]
  | some q =>
      by_cases hg : strTruthy q.gln = true <;>
        simp [createPublishingDetail, publisherElem, hg,
          h1, h2, h3, h4, h5, h6, h7, h8]

theorem countTag_pubdetail_none_eq_zero (name : String)
    (h1 : "PublishingDetail" ≠ name) (h2 : "PublishingStatus" ≠ name) :
    XElem.countTag name (createPublishingDetail none) = 0 := by
  simp [createPublishingDetail, h1, h2]

theorem countTag_priceElem_eq_zero (name : String) (p : PriceEntry)
    (h1 : "Price" ≠ name) (h2 : "PriceType" ≠ name) (h3 : "PriceAmount" ≠ name)
    (h4 : "CurrencyCode" ≠ name) (h5 : "Tax" ≠ name) (h6 : "TaxType" ≠ name)
    (h7 : "TaxRateCode" ≠ name) (h8 : "TaxRatePercent" ≠ name) :
    XElem.countTag name (priceElem p) = 0 := by
  by_cases ht : numTruthy p.tax_rate_percent = true <;>
    simp [priceElem, ht, h1, h2, h3, h4, h5, h6, h7, h8]

theorem countTagList_supply_eq_zero (name : String) (oj : Option OnixJson)
    (h1 : "ProductSupply" ≠ name) (h2 : "SupplyDetail" ≠ name)
    (h3 : "ProductAvailability" ≠ name) (h4 : "Price" ≠ name)
    (h5 : "PriceType" ≠ name) (h6 : "PriceAmount" ≠ name)
    (h7 : "CurrencyCode" ≠ name) (h8 : "Tax" ≠ name) (h9 : "TaxType" ≠ name)
    (h10 : "TaxRateCode" ≠ name) (h11 : "TaxRatePercent" ≠ name) :
    XElem.countTagList name (optChild (createProductSupply oj)) = 0 := by
  have hprice : ∀ l : List PriceEntry,
      XElem.countTagList name (l.map priceElem) = 0 :=
    countTagList_map_eq_zero name priceElem
      (fun q => countTag_priceElem_eq_zero name q h4 h5 h6 h7 h8 h9 h10 h11)
  cases oj with
  | none => simp [createProductSupply, optChild]
  | some j =>
      by_cases hp : j.prices.isEmpty <;>
        simp [createProductSupply, optChild, hp, hprice, h1, h2, h3]

theorem countTag_desc_none_eq_zero (name : String) (p : Product)
    (authors : List Author)
    (h1 : "DescriptiveDetail" ≠ name) (h2 : "ProductComposition" ≠ name)
    (h3 : "ProductForm" ≠ name) (h4 : "TitleDetail" ≠ name)
    (h5 : "TitleType" ≠ name) (h6 : "TitleElement" ≠ name)
    (h7 : "TitleElementLevel" ≠ name) (h8 : "TitleText" ≠ name)
    (h9 : "Contributor" ≠ name) (h10 : "SequenceNumber" ≠ name)
    (h11 : "ContributorRole" ≠ name) (h12 : "PersonName" ≠ name)
    (h13 : "BiographicalNote" ≠ name) (h16 : "Language" ≠ name)
    (h17 : "LanguageRole" ≠ name) (h18 : "LanguageCode" ≠ name) :
    XElem.countTag name (createDescriptiveDetail p authors none) = 0 := by
  have hcontrib := countTagList_contributorElems_eq_zero name authors h9 h10 h11 h12 h13
  simp [createDescriptiveDetail, strTruthy, XElem.countTagList_append, hcontrib,
    h1, h2, h3, h4, h5, h6, h7, h8, h16, h17, h18]

/-- C4: with no publisher, no collection title, and no supplementary
metadata (hence no prices), the document contains no `Collection`, no
`CollateralDetail`, no `ProductSupply` and no `Publisher` element, and the
product's fifth child is a `PublishingDetail` whose sole child is
`PublishingStatus = "04"`. -/
theorem optional_block_omission (p : Product) (authors : List Author)
    (sn se now : String) (hoj : p.onix_json = none) :
    XElem.countTag "Collection"
      (generateProductXml p authors none none sn se now) = 0 ∧
    XElem.countTag "CollateralDetail"
      (generateProductXml p authors none none sn se now) = 0 ∧
    XElem.countTag "ProductSupply"
      (generateProductXml p authors none none sn se now) = 0 ∧
    XElem.countTag "Publisher"
      (generateProductXml p authors none none sn se now) = 0 ∧
    (productElem p authors none none).children.get? 4 =
      some (XElem.mk "PublishingDetail" [] none
        [XElem.leaf "PublishingStatus" "04"]) := by
  refine ⟨?_, ?_, ?_, ?_, ?_⟩
  · have hh := countTag_createHeader_eq_zero "Collection" sn se now
      (by decide) (by decide) (by decide) (by decide) (by decide) (by decide)
    have hid := countTag_createProductIdentifiers_eq_zero "Collection" p.isbn_13
      (by decide) (by decide) (by decide)
    have hd := countTag_desc_none_eq_zero "Collection" p authors
      (by decide) (by decide) (by decide) (by decide) (by decide) (by decide)
      (by decide) (by decide) (by decide) (by decide) (by decide) (by decide)
      (by decide) (by decide) (by decide) (by decide)
    have hpub := countTag_pubdetail_none_eq_zero "Collection" (by decide) (by decide)
    simp [generateProductXml, productElem, hoj, createCollateralDetail,
      createProductSupply, optChild, XElem.countTagList_append, hh, hid, hd, hpub]
  · have hh := countTag_createHeader_eq_zero "CollateralDetail" sn se now
      (by decide) (by decide) (by decide) (by decide) (by decide) (by decide)
    have hid := countTag_createProductIdentifiers_eq_zero "CollateralDetail" p.isbn_13
      (by decide) (by decide) (by decide)
    have hd := countTag_desc_none_eq_zero "CollateralDetail" p authors
      (by decide) (by decide) (by decide) (by decide) (by decide) (by decide)
      (by decide) (by decide) (by decide) (by decide) (by decide) (by decide)
      (by decide) (by decide) (by decide) (by decide)
    have hpub := countTag_pubdetail_none_eq_zero "CollateralDetail" (by decide) (by decide)
    simp [generateProductXml, productElem, hoj, createCollateralDetail,
      createProductSupply, optChild, XElem.countTagList_append, hh, hid, hd, hpub]
  · have hh := countTag_createHeader_eq_zero "ProductSupply" sn se now
      (by decide) (by decide) (by decide) (by decide) (by decide) (by decide)
    have hid := countTag_createProductIdentifiers_eq_zero "ProductSupply" p.isbn_13
      (by decide) (by decide) (by decide)
    have hd := countTag_desc_none_eq_zero "ProductSupply" p authors
      (by decide) (by decide) (by decide) (by decide) (by decide) (by decide)
      (by decide) (by decide) (by decide) (by decide) (by decide) (by decide)
      (by decide) (by decide) (by decide) (by decide)
    have hpub := countTag_pubdetail_none_eq_zero "ProductSupply" (by decide) (by decide)
    simp [generateProductXml, productElem, hoj, createCollateralDetail,
      createProductSupply, optChild, XElem.countTagList_append, hh, hid, hd, hpub]
  · have hh := countTag_createHeader_eq_zero "Publisher" sn se now
      (by decide) (by decide) (by decide) (by decide) (by decide) (by decide)
    have hid := countTag_createProductIdentifiers_eq_zero "Publisher" p.isbn_13
      (by decide) (by decide) (by decide)
    have hd := countTag_desc_none_eq_zero "Publisher" p authors
      (by decide) (by decide) (by decide) (by decide) (by decide) (by decide)
      (by decide) (by decide) (by decide) (by decide) (by decide) (by decide)
      (by decide) (by decide) (by decide) (by decide)
    have hpub := countTag_pubdetail_none_eq_zero "Publisher" (by decide) (by decide)
    simp [generateProductXml, productElem, hoj, createCollateralDetail,
      createProductSupply, optChild, XElem.countTagList_append, hh, hid, hd, hpub]
  · simp [productElem, hoj, createCollateralDetail, createProductSupply,
      createPublishingDetail, optChild]

theorem optional_block_omission_witness :
    XElem.countTag "Collection"
      (generateProductXml ⟨"1", "9780000000002", "Kobzar", none, none, none⟩
        [] none none "S" "" "20260101T000000") = 0 ∧
    XElem.countTag "CollateralDetail"
      (generateProductXml ⟨"1", "9780000000002", "Kobzar", none, none, none⟩
        [] none none "S" "" "20260101T000000") = 0 ∧
    XElem.countTag "ProductSupply"
      (generateProductXml ⟨"1", "9780000000002", "Kobzar", none, none, none⟩
        [] none none "S" "" "20260101T000000") = 0 ∧
    XElem.countTag "Publisher"
      (generateProductXml ⟨"1", "9780000000002", "Kobzar", none, none, none⟩
        [] none none "S" "" "20260101T000000") = 0 ∧
    (productElem ⟨"1", "9780000000002", "Kobzar", none, none, none⟩
        [] none none).children.get? 4 =
      some (XElem.mk "PublishingDetail" [] none
        [XElem.leaf "PublishingStatus" "04"]) :=
  optional_block_omission ⟨"1", "9780000000002", "Kobzar", none, none, none⟩
    [] "S" "" "20260101T000000" rfl

/-- C5: when the supplementary metadata is present (truthy) so the collateral
builder runs, but both sub-lists are empty, a `CollateralDetail` element is
still emitted — exactly one in the document, with zero children; in general
each sub-list entry contributes exactly one child, so empty sub-lists
contribute none. -/
theorem collateral_emitted_with_zero_children (p : Product) (authors : List Author)
    (pub : Option Publisher) (ct : Option String) (sn se now : String)
    (j : OnixJson) (hoj : p.onix_json = some j)
    (htc : j.text_content = []) (hsr : j.supporting_resources = []) :
    XElem.countTag "CollateralDetail"
      (generateProductXml p authors pub ct sn se now) = 1 ∧
    createCollateralDetail p.onix_json =
      some (XElem.mk "CollateralDetail" [] none []) ∧
    (∀ j' : OnixJson,
      (createCollateralDetail (some j')).map (fun e => e.children.length) =
        some (j'.text_content.length + j'.supporting_resources.length)) := by
  refine ⟨?_, ?_, ?_⟩
  · have hh := countTag_createHeader_eq_zero "CollateralDetail" sn se now
      (by decide) (by decide) (by decide) (by decide) (by decide) (by decide)
    have hid := countTag_createProductIdentifiers_eq_zero "CollateralDetail" p.isbn_13
      (by decide) (by decide) (by decide)
    have hd := countTag_createDescriptiveDetail_eq_zero "CollateralDetail" p authors ct
      (by decide) (by decide) (by decide) (by decide) (by decide) (by decide)
      (by decide) (by decide) (by decide) (by decide) (by decide) (by decide)
      (by decide) (by decide) (by decide) (by decide) (by decide) (by decide)
    have hpub := countTag_createPublishingDetail_eq_zero "CollateralDetail" pub
      (by decide) (by decide) (by decide) (by decide) (by decide) (by decide)
      (by decide) (by decide)
    have hsup := countTagList_supply_eq_zero "CollateralDetail" p.onix_json
      (by decide) (by decide) (by decide) (by decide) (by decide) (by decide)
      (by decide) (by decide) (by decide) (by decide) (by decide)
    rw [hoj] at hsup
    simp only [optChild] at hsup
    simp [generateProductXml, productElem, hoj, htc, hsr, createCollateralDetail,
      optChild, XElem.countTagList_append, hh, hid, hd, hpub, hsup]
  · rw [hoj]
    simp [createCollateralDetail, htc, hsr]
  · intro j'
    simp [createCollateralDetail]

theorem collateral_emitted_with_zero_children_witness :
    XElem.countTag "CollateralDetail"
      (generateProductXml ⟨"1", "9780000000002", "T", none, none, some ⟨[], [], []⟩⟩
        [] none none "S" "" "20260101T000000") = 1 ∧
    createCollateralDetail
      (⟨"1", "9780000000002", "T", none, none, some ⟨[], [], []⟩⟩ : Product).onix_json =
      some (XElem.mk "CollateralDetail" [] none []) ∧
    (∀ j' : OnixJson,
      (createCollateralDetail (some j')).map (fun e => e.children.length) =
        some (j'.text_content.length + j'.supporting_resources.length)) :=
  collateral_emitted_with_zero_children
    ⟨"1", "9780000000002", "T", none, none, some ⟨[], [], []⟩⟩
    [] none none "S" "" "20260101T000000" ⟨[], [], []⟩ rfl rfl rfl
